import Mathlib

/-
Verification of the monthly-budget / daily-transaction balance-tracking core of
the backend-appfree repository (services/MonthlyBudgetService.ts,
services/DailyTransactionService.ts, repositories/dailyTransactionRepository.ts,
controllers/DailyTransactionController.ts).

Embedding conventions:
- Currency values (TypeScript number, persisted as decimal) are embedded as Rat.
- Entity ids (uuid strings) are embedded as Nat; generated ids are modelled by
  freshBudgetId / freshTransactionId, which return a Nat strictly larger than
  every id already present, mirroring the uniqueness of generated uuids.
- A JavaScript Date is embedded as JSDate with a calendar year, a 1-indexed
  month and a day.  The translation of the source is: date.getFullYear() is
  JSDate.year, date.getMonth() + 1 is JSDate.month (so a comparison
  date.getMonth() !== other.getMonth() becomes month inequality), and
  new Date(year, month, 0).getDate() is daysInMonth year month.
- The persistent store (TypeORM repositories) is embedded as AppState, lists of
  rows.  repository.save(entity) updates the row with the same id (saveBudget,
  saveTransaction); repository.remove(entity) deletes the row with that id;
  findOne with a where clause is List.find? with the corresponding predicate.
- Thrown AppError values become Except.error; service methods are state passing
  functions AppState -> Except AppError (result x AppState).  An error result
  means the enclosing database work is not committed, i.e. the caller keeps the
  pre-call state.
-/

namespace AppFree

/-- TransactionType enum from entities/DailyTransaction.ts. -/
inductive TransactionType where
  | income
  | expense
deriving DecidableEq, Repr

/-- Embedding of a JavaScript Date restricted to its calendar components.
The month field is the 1-indexed calendar month. -/
structure JSDate where
  year : Int
  month : Nat
  day : Nat
deriving DecidableEq, Repr

/-- Chronological order on dates, used for the SQL BETWEEN comparison in
getDailyTransactionsSumByMonth. -/
def JSDate.le (a b : JSDate) : Bool :=
  decide (a.year < b.year) ||
    (a.year == b.year &&
      (decide (a.month < b.month) || (a.month == b.month && decide (a.day ≤ b.day))))

/-- Leap-year rule of the proleptic Gregorian calendar used by JavaScript Date. -/
def isLeapYear (y : Int) : Bool :=
  (y % 4 == 0 && y % 100 != 0) || (y % 400 == 0)

/-- Number of days of the 1-indexed month m of year y; this is what
new Date(year, month, 0).getDate() evaluates to for month in 1..12. -/
def daysInMonth (y : Int) (m : Nat) : Nat :=
  if m = 2 then (if isLeapYear y then 29 else 28)
  else if m = 4 ∨ m = 6 ∨ m = 9 ∨ m = 11 then 30
  else 31

/-- MonthlyBudget entity from entities/MonthlyBudget.ts (persisted columns the
core reads or writes). -/
structure MonthlyBudget where
  id : Nat
  clientId : Nat
  year : Int
  month : Nat
  monthlySalary : ℚ
  budgetAmount : ℚ
  isPercentage : Bool
  dailyBudget : ℚ
  remainingBalance : ℚ
  daysInMonth : Nat
deriving DecidableEq, Repr

/-- DailyTransaction entity from entities/DailyTransaction.ts. -/
structure DailyTransaction where
  id : Nat
  description : String
  amount : ℚ
  type : TransactionType
  date : JSDate
  remainingBalanceAfterTransaction : ℚ
  clientId : Nat
  categoryId : Option Nat
  monthlyBudgetId : Nat
deriving DecidableEq, Repr

/-- Client entity: the core only reads its id and salary. -/
structure Client where
  id : Nat
  salary : ℚ
deriving DecidableEq, Repr

/-- Category entity: the core only reads its id and owning client. -/
structure Category where
  id : Nat
  clientId : Nat
deriving DecidableEq, Repr

/-- AppError from middlewares/error.middleware.ts: a message and an HTTP
status code. -/
structure AppError where
  message : String
  statusCode : Nat
deriving DecidableEq, Repr

/-- The persistent store: one list of rows per entity table. -/
structure AppState where
  clients : List Client
  categories : List Category
  budgets : List MonthlyBudget
  transactions : List DailyTransaction
deriving DecidableEq, Repr

/-- clientRepository.findClientById. -/
def findClientById (s : AppState) (i : Nat) : Option Client :=
  s.clients.find? (fun c => c.id == i)

/-- categoryRepository.findCategoryById: looks a category up by id only. -/
def findCategoryById (s : AppState) (i : Nat) : Option Category :=
  s.categories.find? (fun c => c.id == i)

/-- monthlyBudgetRepository.findMonthlyBudgetById. -/
def findMonthlyBudgetById (s : AppState) (i : Nat) : Option MonthlyBudget :=
  s.budgets.find? (fun b => b.id == i)

/-- monthlyBudgetRepository.findMonthlyBudgetByYearAndMonth: findOne with
where clause on clientId, year and month. -/
def findMonthlyBudgetByYearAndMonth (s : AppState) (clientId : Nat) (year : Int)
    (month : Nat) : Option MonthlyBudget :=
  s.budgets.find? (fun b => b.clientId == clientId && b.year == year && b.month == month)

/-- dailyTransactionRepository.findDailyTransactionById. -/
def findDailyTransactionById (s : AppState) (i : Nat) : Option DailyTransaction :=
  s.transactions.find? (fun t => t.id == i)

/-- repository.save of a MonthlyBudget row: replaces the row with the same id. -/
def saveBudget (s : AppState) (b : MonthlyBudget) : AppState :=
  { s with budgets := s.budgets.map (fun x => if x.id == b.id then b else x) }

/-- repository.save of a DailyTransaction row: replaces the row with the same id. -/
def saveTransaction (s : AppState) (t : DailyTransaction) : AppState :=
  { s with transactions := s.transactions.map (fun x => if x.id == t.id then t else x) }

/-- repository.remove of a DailyTransaction row. -/
def removeTransaction (s : AppState) (i : Nat) : AppState :=
  { s with transactions := s.transactions.filter (fun x => x.id != i) }

/-- Generated id for a new MonthlyBudget row: strictly larger than every
existing budget id, mirroring uuid generation never colliding. -/
def freshBudgetId (s : AppState) : Nat :=
  (s.budgets.map (fun b => b.id)).foldr max 0 + 1

/-- Generated id for a new DailyTransaction row. -/
def freshTransactionId (s : AppState) : Nat :=
  (s.transactions.map (fun t => t.id)).foldr max 0 + 1

/-- MonthlyBudgetService.getOrCreateMonthlyBudget.  The optional salary
argument reproduces the JavaScript expression
monthlySalary || client.salary, under which an absent argument and a zero
argument both fall back to the salary of the client profile. -/
def getOrCreateMonthlyBudget (s : AppState) (clientId : Nat) (year : Int) (month : Nat)
    (monthlySalary : Option ℚ) : Except AppError (MonthlyBudget × AppState) :=
  match findClientById s clientId with
  | none => .error (AppError.mk "Client not found" 404)
  | some client =>
    match findMonthlyBudgetByYearAndMonth s clientId year month with
    | some budget => .ok (budget, s)
    | none =>
      let dim := daysInMonth year month
      let effectiveMonthlySalary : ℚ :=
        match monthlySalary with
        | some v => if v = 0 then client.salary else v
        | none => client.salary
      let budget : MonthlyBudget :=
        { id := freshBudgetId s
          clientId := clientId
          year := year
          month := month
          monthlySalary := effectiveMonthlySalary
          budgetAmount := 0
          isPercentage := false
          dailyBudget := 0
          remainingBalance := 0
          daysInMonth := dim }
      .ok (budget, { s with budgets := s.budgets ++ [budget] })

/-- MonthlyBudgetService.updateMonthlySalary. -/
def updateMonthlySalary (s : AppState) (budgetId : Nat) (monthlySalary : ℚ) :
    Except AppError (MonthlyBudget × AppState) :=
  match findMonthlyBudgetById s budgetId with
  | none => .error (AppError.mk "Monthly budget not found" 404)
  | some budget =>
    let budget1 := { budget with monthlySalary := monthlySalary }
    let budget2 :=
      if budget1.isPercentage ∧ 0 < budget1.budgetAmount then
        let percentage := budget1.budgetAmount
        let newBudgetAmount := monthlySalary * percentage / 100
        { budget1 with
          budgetAmount := percentage
          dailyBudget := newBudgetAmount / (budget1.daysInMonth : ℚ)
          remainingBalance := newBudgetAmount }
      else budget1
    .ok (budget2, saveBudget s budget2)

/-- MonthlyBudgetService.updateBudgetAmount. -/
def updateBudgetAmount (s : AppState) (budgetId : Nat) (budgetAmount : ℚ)
    (isPercentage : Bool) : Except AppError (MonthlyBudget × AppState) :=
  match findMonthlyBudgetById s budgetId with
  | none => .error (AppError.mk "Monthly budget not found" 404)
  | some budget =>
    if isPercentage ∧ (budgetAmount < 0 ∨ 100 < budgetAmount) then
      .error (AppError.mk "Percentage must be between 0 and 100" 400)
    else
      let actualBudgetAmount : ℚ :=
        if isPercentage then budget.monthlySalary * budgetAmount / 100 else budgetAmount
      let updated : MonthlyBudget :=
        { budget with
          budgetAmount := budgetAmount
          isPercentage := isPercentage
          dailyBudget := actualBudgetAmount / (budget.daysInMonth : ℚ)
          remainingBalance := actualBudgetAmount }
      .ok (updated, saveBudget s updated)

/-- MonthlyBudgetService.updateRemainingBalance, the applyDelta operation of
the specification. -/
def updateRemainingBalance (s : AppState) (budgetId : Nat) (amount : ℚ)
    (isAddition : Bool) : Except AppError (MonthlyBudget × AppState) :=
  match findMonthlyBudgetById s budgetId with
  | none => .error (AppError.mk "Monthly budget not found" 404)
  | some budget =>
    let updated :=
      { budget with
        remainingBalance :=
          if isAddition then budget.remainingBalance + amount
          else budget.remainingBalance - amount }
    .ok (updated, saveBudget s updated)

/-- Request body of DailyTransactionService.createDailyTransaction. -/
structure CreateTransactionData where
  description : String
  amount : ℚ
  type : TransactionType
  date : JSDate
  clientId : Nat
  categoryId : Option Nat
deriving DecidableEq, Repr

/-- Partial update body of DailyTransactionService.updateDailyTransaction;
none encodes an undefined (omitted) field. -/
structure UpdateTransactionData where
  description : Option String
  amount : Option ℚ
  type : Option TransactionType
  date : Option JSDate
  categoryId : Option Nat
deriving DecidableEq, Repr

/-- DailyTransactionService.createDailyTransaction.  Steps in source order:
validate the client, validate the optional category and its ownership, resolve
the monthly budget for the year and month of the transaction date via
getOrCreateMonthlyBudget, compute remainingBalanceAfterTransaction from the
resolved budget, persist the new transaction row, then apply the delta to the
budget through updateRemainingBalance. -/
def createDailyTransactionService (s : AppState) (d : CreateTransactionData) :
    Except AppError (DailyTransaction × AppState) :=
  match findClientById s d.clientId with
  | none => .error (AppError.mk "Client not found" 404)
  | some _client =>
    let catCheck : Except AppError Unit :=
      match d.categoryId with
      | some cid =>
        match findCategoryById s cid with
        | none => .error (AppError.mk "Category not found" 404)
        | some category =>
          if category.clientId ≠ d.clientId then
            .error (AppError.mk "Category does not belong to client" 403)
          else .ok ()
      | none => .ok ()
    match catCheck with
    | .error e => .error e
    | .ok _ =>
      match getOrCreateMonthlyBudget s d.clientId d.date.year d.date.month none with
      | .error e => .error e
      | .ok (monthlyBudget, s1) =>
        let remainingBalanceAfterTransaction : ℚ :=
          if d.type = TransactionType.expense then
            monthlyBudget.remainingBalance - d.amount
          else
            monthlyBudget.remainingBalance + d.amount
        let transaction : DailyTransaction :=
          { id := freshTransactionId s1
            description := d.description
            amount := d.amount
            type := d.type
            date := d.date
            remainingBalanceAfterTransaction := remainingBalanceAfterTransaction
            clientId := d.clientId
            categoryId := d.categoryId
            monthlyBudgetId := monthlyBudget.id }
        let s2 := { s1 with transactions := s1.transactions ++ [transaction] }
        match updateRemainingBalance s2 monthlyBudget.id d.amount
            (d.type = TransactionType.income) with
        | .error e => .error e
        | .ok (_, s3) => .ok (transaction, s3)

/-- DailyTransactionController validation rule for the transaction body that
matters to the core: express-validator requires the amount to be a float of at
least 0.01 and the description to be non-empty. -/
def transactionBodyValid (d : CreateTransactionData) : Bool :=
  d.description != "" && decide ((1 : ℚ) / 100 ≤ d.amount)

/-- DailyTransactionController.create: runs the express-validator rules and
returns a 400 response without calling the service when they fail. -/
def createDailyTransactionRequest (s : AppState) (d : CreateTransactionData) :
    Except AppError (DailyTransaction × AppState) :=
  if d.description == "" then
    .error (AppError.mk "Description is required" 400)
  else if ¬ ((1 : ℚ) / 100 ≤ d.amount) then
    .error (AppError.mk "Amount must be a positive number" 400)
  else
    createDailyTransactionService s d

/-- DailyTransactionService.deleteDailyTransaction: load the transaction and
its budget, reverse the transaction effect on the budget, then remove the row. -/
def deleteDailyTransactionService (s : AppState) (i : Nat) :
    Except AppError AppState :=
  match findDailyTransactionById s i with
  | none => .error (AppError.mk "Daily transaction not found" 404)
  | some transaction =>
    match findMonthlyBudgetById s transaction.monthlyBudgetId with
    | none => .error (AppError.mk "Monthly budget not found" 404)
    | some monthlyBudget =>
      match updateRemainingBalance s monthlyBudget.id transaction.amount
          (transaction.type ≠ TransactionType.income) with
      | .error e => .error e
      | .ok (_, s1) => .ok (removeTransaction s1 transaction.id)

/-- DailyTransactionService.updateDailyTransaction, in source order: load the
transaction, record the original amount, type and date, detect a month change
of the date, validate and set a changed category, overwrite description, type
and date when supplied, and when amount or type is supplied or the month
changed, reverse the original effect on the current budget, then either apply
the new effect to the budget of the new month (resolved by
getOrCreateMonthlyBudget after the reversal) or reapply to the current budget,
recompute remainingBalanceAfterTransaction from the in-memory (stale) copy of
the target budget, set a supplied amount, and finally save the row. -/
def updateDailyTransactionService (s : AppState) (i : Nat) (u : UpdateTransactionData) :
    Except AppError (DailyTransaction × AppState) :=
  match findDailyTransactionById s i with
  | none => .error (AppError.mk "Daily transaction not found" 404)
  | some transaction =>
    let originalAmount := transaction.amount
    let originalType := transaction.type
    let originalDate := transaction.date
    let monthChanged : Bool :=
      match u.date with
      | some d => d.month != originalDate.month || d.year != originalDate.year
      | none => false
    let catRes : Except AppError DailyTransaction :=
      match u.categoryId with
      | some cid =>
        if some cid ≠ transaction.categoryId then
          match findCategoryById s cid with
          | none => .error (AppError.mk "Category not found" 404)
          | some _category => .ok { transaction with categoryId := some cid }
        else .ok transaction
      | none => .ok transaction
    match catRes with
    | .error e => .error e
    | .ok txnCat =>
      let txn1 :=
        { txnCat with
          description := u.description.getD txnCat.description
          type := u.type.getD txnCat.type
          date := u.date.getD txnCat.date }
      if u.amount.isSome || u.type.isSome || monthChanged then
        match findMonthlyBudgetById s txn1.monthlyBudgetId with
        | none => .error (AppError.mk "Monthly budget not found" 404)
        | some currentBudget =>
          match updateRemainingBalance s currentBudget.id originalAmount
              (originalType ≠ TransactionType.income) with
          | .error e => .error e
          | .ok (_, s1) =>
            let newAmount := u.amount.getD originalAmount
            let newType := u.type.getD originalType
            if monthChanged then
              let newDate := u.date.getD originalDate
              match getOrCreateMonthlyBudget s1 txn1.clientId newDate.year
                  newDate.month none with
              | .error e => .error e
              | .ok (newBudget, s2) =>
                let txn2 := { txn1 with monthlyBudgetId := newBudget.id }
                match updateRemainingBalance s2 newBudget.id newAmount
                    (newType = TransactionType.income) with
                | .error e => .error e
                | .ok (_, s3) =>
                  let txn3 :=
                    { txn2 with
                      remainingBalanceAfterTransaction :=
                        if newType = TransactionType.expense then
                          newBudget.remainingBalance - newAmount
                        else
                          newBudget.remainingBalance + newAmount }
                  let txn4 :=
                    match u.amount with
                    | some a => { txn3 with amount := a }
                    | none => txn3
                  .ok (txn4, saveTransaction s3 txn4)
            else
              match updateRemainingBalance s1 currentBudget.id newAmount
                  (newType = TransactionType.income) with
              | .error e => .error e
              | .ok (_, s3) =>
                let txn3 :=
                  { txn1 with
                    remainingBalanceAfterTransaction :=
                      if newType = TransactionType.expense then
                        currentBudget.remainingBalance - newAmount
                      else
                        currentBudget.remainingBalance + newAmount }
                let txn4 :=
                  match u.amount with
                  | some a => { txn3 with amount := a }
                  | none => txn3
                .ok (txn4, saveTransaction s3 txn4)
      else
        .ok (txn1, saveTransaction s txn1)

/-- SQL SUM aggregate over a list of amounts: NULL (none) on the empty set,
otherwise the total; the repository maps NULL to 0. -/
def sqlSumAmount (l : List ℚ) : Option ℚ :=
  l.foldl (fun acc a => some (acc.getD 0 + a)) none

/-- dailyTransactionRepository.getDailyTransactionsSumByDate: SUM(amount) over
rows with the given clientId, exactly the given date and type expense. -/
def getDailyTransactionsSumByDate (txs : List DailyTransaction) (clientId : Nat)
    (date : JSDate) : ℚ :=
  (sqlSumAmount ((txs.filter (fun t =>
      t.clientId == clientId && t.date == date
        && t.type == TransactionType.expense)).map
        (fun t => t.amount))).getD 0

/-- dailyTransactionRepository.getDailyTransactionsSumByMonth: SUM(amount) over
rows with the given clientId, date BETWEEN the first and the last day of the
month, and type expense. -/
def getDailyTransactionsSumByMonth (txs : List DailyTransaction) (clientId : Nat)
    (year : Int) (month : Nat) : ℚ :=
  let startDate : JSDate := { year := year, month := month, day := 1 }
  let endDate : JSDate := { year := year, month := month, day := daysInMonth year month }
  (sqlSumAmount ((txs.filter (fun t =>
      t.clientId == clientId && JSDate.le startDate t.date
        && JSDate.le t.date endDate
        && t.type == TransactionType.expense)).map
        (fun t => t.amount))).getD 0

/-- Replacing rows of a table pointwise does not change the result of a find?
whose predicate is untouched by the replacement and holds only for rows the
replacement keeps. -/
theorem find?_map_congr {α : Type} (g : α → α) (q : α → Bool) (l : List α)
    (h1 : ∀ x ∈ l, q (g x) = q x) (h2 : ∀ x ∈ l, q x = true → g x = x) :
    (l.map g).find? q = l.find? q := by
  induction l with
  | nil => rfl
  | cons a t ih =>
    have ha1 : q (g a) = q a := h1 a (by simp)
    cases hqa : q a with
    | true =>
      have hga : g a = a := h2 a (by simp) hqa
      rw [List.map_cons, hga, List.find?_cons_of_pos _ hqa, List.find?_cons_of_pos _ hqa]
    | false =>
      rw [List.map_cons, List.find?_cons_of_neg _ (by simp [ha1, hqa]),
        List.find?_cons_of_neg _ (by simp [hqa])]
      exact ih (fun x hx => h1 x (by simp [hx])) (fun x hx => h2 x (by simp [hx]))

/-- Saving a row c over the row with the same id makes a find? by that id
return c, provided some row with that id exists. -/
theorem find?_replace_self {α : Type} (f : α → Nat) (l : List α) (c : α)
    (h : (l.find? (fun x => f x == f c)).isSome = true) :
    (l.map (fun x => if f x == f c then c else x)).find? (fun x => f x == f c) =
      some c := by
  induction l with
  | nil => simp [List.find?] at h
  | cons a t ih =>
    by_cases ha : (f a == f c) = true
    · rw [List.map_cons, if_pos ha]
      exact List.find?_cons_of_pos _ (by simp)
    · rw [List.find?_cons_of_neg _ (by simpa using ha)] at h
      rw [List.map_cons, if_neg ha, List.find?_cons_of_neg _ (by simpa using ha)]
      exact ih h

/-- A find? over a pointwise-replaced table returns none when the predicate
fails on every replaced row. -/
theorem find?_map_none {α : Type} (g : α → α) (q : α → Bool) (l : List α)
    (h : ∀ x ∈ l, q (g x) = false) : (l.map g).find? q = none := by
  rw [List.find?_eq_none]
  intro y hy
  rw [List.mem_map] at hy
  obtain ⟨x, hx, rfl⟩ := hy
  simp [h x hx]

/-- A find? that succeeds on a table still returns the same row after the
table is extended on the right. -/
theorem find?_append_left {α : Type} (p : α → Bool) (l1 l2 : List α) (b : α)
    (h : l1.find? p = some b) : (l1 ++ l2).find? p = some b := by
  induction l1 with
  | nil => simp [List.find?] at h
  | cons a t ih =>
    by_cases ha : p a = true
    · rw [List.find?_cons_of_pos _ ha] at h
      rw [List.cons_append, List.find?_cons_of_pos _ ha]
      exact h
    · rw [List.find?_cons_of_neg _ (by simpa using ha)] at h
      rw [List.cons_append, List.find?_cons_of_neg _ (by simpa using ha)]
      exact ih h

/-- A find? that fails on a table continues on the appended rows. -/
theorem find?_append_right {α : Type} (p : α → Bool) (l1 l2 : List α)
    (h : l1.find? p = none) : (l1 ++ l2).find? p = l2.find? p := by
  induction l1 with
  | nil => rfl
  | cons a t ih =>
    rw [List.find?_eq_none] at h
    have ha : ¬ p a = true := h a (by simp)
    rw [List.cons_append, List.find?_cons_of_neg _ (by simpa using ha)]
    exact ih (List.find?_eq_none.mpr fun x hx => h x (by simp [hx]))

/-- Every member of a list of naturals is bounded by the foldr max. -/
theorem mem_le_foldr_max (l : List Nat) (x : Nat) (h : x ∈ l) :
    x ≤ l.foldr max 0 := by
  induction l with
  | nil => cases h
  | cons a t ih =>
    rcases List.mem_cons.mp h with rfl | h2
    · exact le_max_left _ _
    · exact le_trans (ih h2) (le_max_right _ _)

/-- Under unique ids, a find? by the id of a member returns that member. -/
theorem find?_of_nodup_mem {α : Type} (f : α → Nat) (l : List α) (b : α)
    (hn : (l.map f).Nodup) (hb : b ∈ l) :
    l.find? (fun x => f x == f b) = some b := by
  induction l with
  | nil => cases hb
  | cons a t ih =>
    rw [List.map_cons, List.nodup_cons] at hn
    rcases List.mem_cons.mp hb with rfl | hbt
    · exact List.find?_cons_of_pos _ (by simp)
    · have hne : ¬ (f a == f b) = true := by
        intro hEq
        have hfe : f a = f b := by simpa using hEq
        exact hn.1 (hfe ▸ List.mem_map_of_mem f hbt)
      rw [(List.find?_cons_of_neg t hne :
        (a :: t).find? (fun x => f x == f b) = t.find? (fun x => f x == f b))]
      exact ih hn.2 hbt

/-- Ids are injective on a table with nodup ids. -/
theorem eq_of_nodup_ids {α : Type} (f : α → Nat) (l : List α) (x y : α)
    (hn : (l.map f).Nodup) (hx : x ∈ l) (hy : y ∈ l) (hf : f x = f y) : x = y :=
  List.inj_on_of_nodup_map hn hx hy hf

theorem saveBudget_clients (s : AppState) (b : MonthlyBudget) :
    (saveBudget s b).clients = s.clients := rfl

theorem saveBudget_categories (s : AppState) (b : MonthlyBudget) :
    (saveBudget s b).categories = s.categories := rfl

theorem saveBudget_transactions (s : AppState) (b : MonthlyBudget) :
    (saveBudget s b).transactions = s.transactions := rfl

theorem saveBudget_budgets (s : AppState) (b : MonthlyBudget) :
    (saveBudget s b).budgets = s.budgets.map (fun x => if x.id == b.id then b else x) :=
  rfl

theorem saveTransaction_budgets (s : AppState) (t : DailyTransaction) :
    (saveTransaction s t).budgets = s.budgets := rfl

theorem saveTransaction_transactions (s : AppState) (t : DailyTransaction) :
    (saveTransaction s t).transactions =
      s.transactions.map (fun x => if x.id == t.id then t else x) := rfl

theorem findClientById_saveBudget (s : AppState) (b : MonthlyBudget) (i : Nat) :
    findClientById (saveBudget s b) i = findClientById s i := rfl

theorem findMonthlyBudgetById_saveTransaction (s : AppState) (t : DailyTransaction)
    (i : Nat) : findMonthlyBudgetById (saveTransaction s t) i = findMonthlyBudgetById s i :=
  rfl

/-- A successful find? by id pins the id of the returned row. -/
theorem id_of_findMonthlyBudgetById (s : AppState) (i : Nat) (b : MonthlyBudget)
    (h : findMonthlyBudgetById s i = some b) : b.id = i := by
  unfold findMonthlyBudgetById at h
  simpa using List.find?_some h

theorem mem_of_findMonthlyBudgetById (s : AppState) (i : Nat) (b : MonthlyBudget)
    (h : findMonthlyBudgetById s i = some b) : b ∈ s.budgets :=
  List.mem_of_find?_eq_some h

theorem id_of_findDailyTransactionById (s : AppState) (i : Nat) (t : DailyTransaction)
    (h : findDailyTransactionById s i = some t) : t.id = i := by
  unfold findDailyTransactionById at h
  simpa using List.find?_some h

/-- Every budget id in a state is strictly below the generated fresh id. -/
theorem budget_id_lt_fresh (s : AppState) (b : MonthlyBudget) (hb : b ∈ s.budgets) :
    b.id < freshBudgetId s :=
  Nat.lt_succ_of_le (mem_le_foldr_max _ _ (List.mem_map_of_mem _ hb))

/-- Every transaction id in a state is strictly below the generated fresh id. -/
theorem transaction_id_lt_fresh (s : AppState) (t : DailyTransaction)
    (ht : t ∈ s.transactions) : t.id < freshTransactionId s :=
  Nat.lt_succ_of_le (mem_le_foldr_max _ _ (List.mem_map_of_mem _ ht))

/-- Fixture client used by concrete witnesses. -/
def wClient : Client := { id := 1, salary := 1000 }

/-- Fixture budget used by concrete witnesses. -/
def wBudget : MonthlyBudget :=
  { id := 1, clientId := 1, year := 2024, month := 5, monthlySalary := 1000,
    budgetAmount := 0, isPercentage := false, dailyBudget := 0,
    remainingBalance := 100, daysInMonth := 31 }

/-- Fixture state with one client and one budget and no transactions. -/
def wState : AppState :=
  { clients := [wClient], categories := [], budgets := [wBudget], transactions := [] }

/-- C8: for an existing budget, updateRemainingBalance (the applyDelta of the
specification) changes remainingBalance by exactly +amount when the income
flag is set and by -amount otherwise, and leaves every other field of the
budget unchanged. -/
theorem C8_applyDelta_delta_and_frame (s : AppState) (budgetId : Nat) (amount : ℚ)
    (isIncome : Bool) (b : MonthlyBudget)
    (hb : findMonthlyBudgetById s budgetId = some b) :
    ∃ b2, updateRemainingBalance s budgetId amount isIncome = .ok (b2, saveBudget s b2) ∧
      b2.remainingBalance = b.remainingBalance + (if isIncome then amount else -amount) ∧
      b2.id = b.id ∧ b2.clientId = b.clientId ∧ b2.year = b.year ∧ b2.month = b.month ∧
      b2.monthlySalary = b.monthlySalary ∧ b2.budgetAmount = b.budgetAmount ∧
      b2.isPercentage = b.isPercentage ∧ b2.dailyBudget = b.dailyBudget ∧
      b2.daysInMonth = b.daysInMonth := by
  refine ⟨{ b with remainingBalance := if isIncome then b.remainingBalance + amount
      else b.remainingBalance - amount },
    ?_, ?_, rfl, rfl, rfl, rfl, rfl, rfl, rfl, rfl, rfl⟩
  · simp only [updateRemainingBalance, hb]
  · cases isIncome <;> simp [sub_eq_add_neg]

/-- C8 witness: the theorem applied to the fixture budget with amount 5. -/
theorem C8_applyDelta_witness :
    findMonthlyBudgetById wState 1 = some wBudget ∧
    ∃ b2, updateRemainingBalance wState 1 5 true = .ok (b2, saveBudget wState b2) ∧
      b2.remainingBalance = wBudget.remainingBalance + (if true then (5 : ℚ) else -5) ∧
      b2.id = wBudget.id ∧ b2.clientId = wBudget.clientId ∧ b2.year = wBudget.year ∧
      b2.month = wBudget.month ∧ b2.monthlySalary = wBudget.monthlySalary ∧
      b2.budgetAmount = wBudget.budgetAmount ∧ b2.isPercentage = wBudget.isPercentage ∧
      b2.dailyBudget = wBudget.dailyBudget ∧ b2.daysInMonth = wBudget.daysInMonth :=
  ⟨rfl, C8_applyDelta_delta_and_frame wState 1 5 true wBudget rfl⟩

/-- C5: updateBudgetAmount on an existing budget rejects an out-of-range
percentage with the 400 invalid-range error, and otherwise stores the supplied
budgetAmount and isPercentage, sets dailyBudget to the effective amount divided
by daysInMonth and resets remainingBalance to the effective amount. -/
theorem C5_updateBudgetAmount_spec (s : AppState) (budgetId : Nat) (amount : ℚ)
    (isPercentage : Bool) (b : MonthlyBudget)
    (hb : findMonthlyBudgetById s budgetId = some b) :
    (isPercentage = true → amount < 0 ∨ 100 < amount →
      updateBudgetAmount s budgetId amount isPercentage =
        .error (AppError.mk "Percentage must be between 0 and 100" 400)) ∧
    ((isPercentage = true → 0 ≤ amount ∧ amount ≤ 100) →
      updateBudgetAmount s budgetId amount isPercentage =
        .ok ({ b with
                budgetAmount := amount
                isPercentage := isPercentage
                dailyBudget :=
                  (if isPercentage then b.monthlySalary * amount / 100 else amount) /
                    (b.daysInMonth : ℚ)
                remainingBalance :=
                  if isPercentage then b.monthlySalary * amount / 100 else amount },
              saveBudget s
                { b with
                  budgetAmount := amount
                  isPercentage := isPercentage
                  dailyBudget :=
                    (if isPercentage then b.monthlySalary * amount / 100 else amount) /
                      (b.daysInMonth : ℚ)
                  remainingBalance :=
                    if isPercentage then b.monthlySalary * amount / 100 else amount })) := by
  constructor
  · intro hp hrange
    have hc : isPercentage = true ∧ (amount < 0 ∨ 100 < amount) := ⟨hp, hrange⟩
    simp only [updateBudgetAmount, hb]
    rw [if_pos hc]
  · intro hok
    have hc : ¬ (isPercentage = true ∧ (amount < 0 ∨ 100 < amount)) := by
      rintro ⟨hp, hr⟩
      rcases hok hp with ⟨h0, h100⟩
      rcases hr with hr | hr
      · exact absurd h0 (not_le.mpr hr)
      · exact absurd h100 (not_le.mpr hr)
    simp only [updateBudgetAmount, hb]
    rw [if_neg hc]

/-- C5 witness: a 50 percent budget on the fixture (salary 1000, 31 days). -/
theorem C5_updateBudgetAmount_witness :
    findMonthlyBudgetById wState 1 = some wBudget ∧
    (((true : Bool) = true → (50 : ℚ) < 0 ∨ 100 < (50 : ℚ) →
      updateBudgetAmount wState 1 50 true =
        .error (AppError.mk "Percentage must be between 0 and 100" 400)) ∧
    (((true : Bool) = true → (0 : ℚ) ≤ 50 ∧ (50 : ℚ) ≤ 100) →
      updateBudgetAmount wState 1 50 true =
        .ok ({ wBudget with
                budgetAmount := 50
                isPercentage := true
                dailyBudget :=
                  (if true then wBudget.monthlySalary * 50 / 100 else 50) /
                    (wBudget.daysInMonth : ℚ)
                remainingBalance :=
                  if true then wBudget.monthlySalary * 50 / 100 else 50 },
              saveBudget wState
                { wBudget with
                  budgetAmount := 50
                  isPercentage := true
                  dailyBudget :=
                    (if true then wBudget.monthlySalary * 50 / 100 else 50) /
                      (wBudget.daysInMonth : ℚ)
                  remainingBalance :=
                    if true then wBudget.monthlySalary * 50 / 100 else 50 }))) :=
  ⟨rfl, C5_updateBudgetAmount_spec wState 1 50 true wBudget rfl⟩

/-- C6: updateMonthlySalary on an existing budget always stores the new salary;
with a positive percentage budget it also recomputes dailyBudget and resets
remainingBalance to the new effective amount, and otherwise it changes no other
field. -/
theorem C6_updateMonthlySalary_spec (s : AppState) (budgetId : Nat) (v : ℚ)
    (b : MonthlyBudget) (hb : findMonthlyBudgetById s budgetId = some b) :
    (b.isPercentage = true → 0 < b.budgetAmount →
      updateMonthlySalary s budgetId v =
        .ok ({ b with
                monthlySalary := v
                dailyBudget := v * b.budgetAmount / 100 / (b.daysInMonth : ℚ)
                remainingBalance := v * b.budgetAmount / 100 },
              saveBudget s
                { b with
                  monthlySalary := v
                  dailyBudget := v * b.budgetAmount / 100 / (b.daysInMonth : ℚ)
                  remainingBalance := v * b.budgetAmount / 100 })) ∧
    (¬ (b.isPercentage = true ∧ 0 < b.budgetAmount) →
      updateMonthlySalary s budgetId v =
        .ok ({ b with monthlySalary := v },
             saveBudget s { b with monthlySalary := v })) := by
  constructor
  · intro hp hpos
    simp only [updateMonthlySalary, hb]
    rw [if_pos (⟨hp, hpos⟩ : _ ∧ _)]
  · intro hneg
    simp only [updateMonthlySalary, hb]
    rw [if_neg hneg]

/-- C6 witness: raising the salary of the fixture budget to 2000; the fixture
budget is a fixed-amount budget, so only monthlySalary changes. -/
theorem C6_updateMonthlySalary_witness :
    findMonthlyBudgetById wState 1 = some wBudget ∧
    ((wBudget.isPercentage = true → 0 < wBudget.budgetAmount →
      updateMonthlySalary wState 1 2000 =
        .ok ({ wBudget with
                monthlySalary := 2000
                dailyBudget := 2000 * wBudget.budgetAmount / 100 / (wBudget.daysInMonth : ℚ)
                remainingBalance := 2000 * wBudget.budgetAmount / 100 },
              saveBudget wState
                { wBudget with
                  monthlySalary := 2000
                  dailyBudget := 2000 * wBudget.budgetAmount / 100 / (wBudget.daysInMonth : ℚ)
                  remainingBalance := 2000 * wBudget.budgetAmount / 100 })) ∧
    (¬ (wBudget.isPercentage = true ∧ 0 < wBudget.budgetAmount) →
      updateMonthlySalary wState 1 2000 =
        .ok ({ wBudget with monthlySalary := 2000 },
             saveBudget wState { wBudget with monthlySalary := 2000 }))) :=
  ⟨rfl, C6_updateMonthlySalary_spec wState 1 2000 wBudget rfl⟩

/-- Budget row created by getOrCreateMonthlyBudget when the lookup misses;
its monthlySalary reproduces the monthlySalary || client.salary fallback. -/
def createdBudgetRow (s : AppState) (clientId : Nat) (year : Int) (month : Nat)
    (salary : Option ℚ) (client : Client) : MonthlyBudget :=
  { id := freshBudgetId s
    clientId := clientId
    year := year
    month := month
    monthlySalary :=
      match salary with
      | some v => if v = 0 then client.salary else v
      | none => client.salary
    budgetAmount := 0
    isPercentage := false
    dailyBudget := 0
    remainingBalance := 0
    daysInMonth := daysInMonth year month }

/-- C4 (amended): for an existing client, getOrCreateMonthlyBudget returns an
existing budget for the key unmodified and leaves the state unchanged; when the
key is absent it creates and returns a budget with budgetAmount 0,
isPercentage false, dailyBudget 0, remainingBalance 0, daysInMonth the calendar
number of days of the month (29 for February 2024, 28 for February 2023, 30
for April), and monthlySalary equal to the supplied salary argument when that
argument is present and nonzero, and equal to the client profile salary when
the argument is absent or zero. -/
theorem C4_getOrCreate_amended (s : AppState) (clientId : Nat) (year : Int)
    (month : Nat) (salary : Option ℚ) (client : Client)
    (hcl : findClientById s clientId = some client) :
    (∀ b, findMonthlyBudgetByYearAndMonth s clientId year month = some b →
      getOrCreateMonthlyBudget s clientId year month salary = .ok (b, s)) ∧
    (findMonthlyBudgetByYearAndMonth s clientId year month = none →
      getOrCreateMonthlyBudget s clientId year month salary =
        .ok (createdBudgetRow s clientId year month salary client,
             { s with budgets :=
                 s.budgets ++ [createdBudgetRow s clientId year month salary client] })) ∧
    daysInMonth 2024 2 = 29 ∧ daysInMonth 2023 2 = 28 ∧ daysInMonth 2024 4 = 30 := by
  refine ⟨?_, ?_, by decide, by decide, by decide⟩
  · intro b hbk
    simp only [getOrCreateMonthlyBudget, hcl, hbk]
  · intro hnone
    simp only [getOrCreateMonthlyBudget, hcl, hnone, createdBudgetRow]

/-- C4 witness: the fixture has no budget for June 2024, so a budget with the
documented defaults is created from the client salary. -/
theorem C4_getOrCreate_witness :
    findClientById wState 1 = some wClient ∧
    ((∀ b, findMonthlyBudgetByYearAndMonth wState 1 2024 6 = some b →
      getOrCreateMonthlyBudget wState 1 2024 6 none = .ok (b, wState)) ∧
    (findMonthlyBudgetByYearAndMonth wState 1 2024 6 = none →
      getOrCreateMonthlyBudget wState 1 2024 6 none =
        .ok (createdBudgetRow wState 1 2024 6 none wClient,
             { wState with budgets :=
                 wState.budgets ++ [createdBudgetRow wState 1 2024 6 none wClient] })) ∧
    daysInMonth 2024 2 = 29 ∧ daysInMonth 2023 2 = 28 ∧ daysInMonth 2024 4 = 30) :=
  ⟨rfl, C4_getOrCreate_amended wState 1 2024 6 none wClient rfl⟩

/-- C4 counterexample: the claim says a supplied salary argument is always
used; but with profile salary 1000 and supplied salary 0 the created budget
stores monthlySalary 1000, because the source evaluates
monthlySalary || client.salary and 0 is falsy. -/
theorem C4_salary_zero_counterexample :
    (getOrCreateMonthlyBudget wState 1 2024 6 (some 0)).toOption.map
      (fun p => p.1.monthlySalary) = some 1000 ∧ (1000 : ℚ) ≠ 0 := by
  constructor
  · simp [getOrCreateMonthlyBudget, wState, wClient, wBudget, findClientById,
      findMonthlyBudgetByYearAndMonth, Except.toOption]
  · norm_num

/-- C7 counterexample: the service layer itself performs no amount check: on
the fixture budget with balance 100 it accepts an expense of amount -5,
creates the transaction row and moves the balance to 105. -/
theorem C7_service_accepts_nonpositive_amount :
    (createDailyTransactionService wState
      { description := "snack", amount := -5, type := TransactionType.expense,
        date := { year := 2024, month := 5, day := 10 }, clientId := 1,
        categoryId := none }).toOption.map
      (fun p => ((findMonthlyBudgetById p.2 1).map (fun b => b.remainingBalance),
                 (findDailyTransactionById p.2 p.1.id).isSome)) =
      some (some 105, true) ∧ (105 : ℚ) ≠ 100 := by
  constructor
  · simp [createDailyTransactionService, wState, wClient, wBudget, findClientById,
      findMonthlyBudgetByYearAndMonth, findMonthlyBudgetById, findDailyTransactionById,
      getOrCreateMonthlyBudget, updateRemainingBalance, saveBudget, freshTransactionId,
      Except.toOption]
    norm_num
  · norm_num

/-- C7 (amended): a create request with a non-empty description and amount at
most 0 is rejected by the controller validation (which requires amount at
least 0.01) with a 400 error before the service runs, so no transaction row is
created and no budget balance changes. -/
theorem C7_request_rejects_nonpositive_amount (s : AppState)
    (d : CreateTransactionData) (hd : d.description ≠ "") (ha : d.amount ≤ 0) :
    createDailyTransactionRequest s d =
      .error (AppError.mk "Amount must be a positive number" 400) := by
  simp only [createDailyTransactionRequest]
  rw [if_neg (by simpa using hd), if_pos (not_le.mpr (lt_of_le_of_lt ha (by norm_num)))]

/-- C7 witness: a concrete zero-amount request on the fixture state. -/
theorem C7_request_witness :
    (("snack" : String) ≠ "" ∧ ((0 : ℚ) ≤ 0)) ∧
    createDailyTransactionRequest wState
      { description := "snack", amount := 0, type := TransactionType.expense,
        date := { year := 2024, month := 5, day := 10 }, clientId := 1,
        categoryId := none } =
      .error (AppError.mk "Amount must be a positive number" 400) :=
  ⟨⟨by simp, le_refl 0⟩,
    C7_request_rejects_nonpositive_amount wState _ (by simp) (le_refl 0)⟩

/-- Budget row as updateRemainingBalance rewrites it. -/
def deltaApplied (b : MonthlyBudget) (a : ℚ) (isAddition : Bool) : MonthlyBudget :=
  { b with remainingBalance :=
      if isAddition then b.remainingBalance + a else b.remainingBalance - a }

/-- Characterization of updateRemainingBalance on an existing budget. -/
theorem updateRemainingBalance_found (s : AppState) (i : Nat) (a : ℚ) (add : Bool)
    (b : MonthlyBudget) (hb : findMonthlyBudgetById s i = some b) :
    updateRemainingBalance s i a add =
      .ok (deltaApplied b a add, saveBudget s (deltaApplied b a add)) := by
  simp only [updateRemainingBalance, deltaApplied, hb]

/-- Saving a budget row makes a lookup of its id return the saved row. -/
theorem findMonthlyBudgetById_save_self (s : AppState) (c : MonthlyBudget)
    (h : (findMonthlyBudgetById s c.id).isSome = true) :
    findMonthlyBudgetById (saveBudget s c) c.id = some c :=
  find?_replace_self (fun (x : MonthlyBudget) => x.id) s.budgets c h

/-- Saving a budget row does not change lookups of other ids. -/
theorem findMonthlyBudgetById_save_other (s : AppState) (c : MonthlyBudget) (i : Nat)
    (hne : c.id ≠ i) :
    findMonthlyBudgetById (saveBudget s c) i = findMonthlyBudgetById s i := by
  apply find?_map_congr
  · intro x _
    by_cases hxc : (x.id == c.id) = true
    · have hx : x.id = c.id := by simpa using hxc
      simp [hxc, hx]
    · simp [hxc]
  · intro x _ hq
    have hxi : x.id = i := by simpa using hq
    have hne2 : ¬ (x.id == c.id) = true := by
      simp only [beq_iff_eq, hxi]
      exact fun hh => hne hh.symm
    simp [hne2]

/-- Saving a transaction row makes a lookup of its id return the saved row. -/
theorem findDailyTransactionById_save_self (s : AppState) (c : DailyTransaction)
    (h : (findDailyTransactionById s c.id).isSome = true) :
    findDailyTransactionById (saveTransaction s c) c.id = some c :=
  find?_replace_self (fun (x : DailyTransaction) => x.id) s.transactions c h

/-- A lookup by id over a table extended with a row carrying that fresh id
returns the new row, provided no old row has the id. -/
theorem find?_append_new {α : Type} (f : α → Nat) (l : List α) (c : α)
    (h : ∀ x ∈ l, f x ≠ f c) :
    (l ++ [c]).find? (fun x => f x == f c) = some c := by
  rw [find?_append_right _ _ _
    (List.find?_eq_none.mpr (fun x hx => by simpa using h x hx))]
  exact List.find?_cons_of_pos _ (by simp)

/-- Removing the rows with a given id makes the lookup of that id fail. -/
theorem find?_filter_ne {α : Type} (f : α → Nat) (l : List α) (i : Nat) :
    (l.filter (fun x => f x != i)).find? (fun x => f x == i) = none := by
  rw [List.find?_eq_none]
  intro x hx
  have := (List.mem_filter.mp hx).2
  simpa using this

/-- Fixture transaction: an expense of 30 recorded against the fixture budget
when its balance was 100, leaving balance and snapshot 70. -/
def wTxn : DailyTransaction :=
  { id := 1, description := "Lunch", amount := 30, type := TransactionType.expense,
    date := { year := 2024, month := 5, day := 10 },
    remainingBalanceAfterTransaction := 70, clientId := 1, categoryId := none,
    monthlyBudgetId := 1 }

/-- Fixture budget after the fixture expense was applied. -/
def wBudget70 : MonthlyBudget := { wBudget with remainingBalance := 70 }

/-- Fixture state holding the fixture transaction and its budget. -/
def wState2 : AppState :=
  { clients := [wClient], categories := [], budgets := [wBudget70],
    transactions := [wTxn] }

/-- C10: an update request that supplies only a date lying in the same month
and year as the stored date changes only the date field of the row: no balance
arithmetic runs, the budget table is untouched, and amount, type,
remainingBalanceAfterTransaction, monthlyBudgetId, description and categoryId
of the row are unchanged. -/
theorem C10_same_month_date_only_update (s : AppState) (i : Nat)
    (txn : DailyTransaction) (d : JSDate)
    (ht : findDailyTransactionById s i = some txn)
    (hm : d.month = txn.date.month) (hy : d.year = txn.date.year) :
    updateDailyTransactionService s i
      { description := none, amount := none, type := none, date := some d,
        categoryId := none } =
      .ok ({ txn with date := d }, saveTransaction s { txn with date := d }) ∧
    (saveTransaction s { txn with date := d }).budgets = s.budgets ∧
    ({ txn with date := d } : DailyTransaction).amount = txn.amount ∧
    ({ txn with date := d } : DailyTransaction).type = txn.type ∧
    ({ txn with date := d } : DailyTransaction).remainingBalanceAfterTransaction =
      txn.remainingBalanceAfterTransaction ∧
    ({ txn with date := d } : DailyTransaction).monthlyBudgetId = txn.monthlyBudgetId ∧
    ({ txn with date := d } : DailyTransaction).description = txn.description ∧
    ({ txn with date := d } : DailyTransaction).categoryId = txn.categoryId := by
  refine ⟨?_, rfl, rfl, rfl, rfl, rfl, rfl, rfl⟩
  simp only [updateDailyTransactionService, ht]
  simp [hm, hy]

/-- C10 witness: moving the fixture transaction one day later inside May 2024. -/
theorem C10_witness :
    (findDailyTransactionById wState2 1 = some wTxn ∧
      ({ year := 2024, month := 5, day := 11 } : JSDate).month = wTxn.date.month ∧
      ({ year := 2024, month := 5, day := 11 } : JSDate).year = wTxn.date.year) ∧
    updateDailyTransactionService wState2 1
      { description := none, amount := none, type := none,
        date := some { year := 2024, month := 5, day := 11 }, categoryId := none } =
      .ok ({ wTxn with date := { year := 2024, month := 5, day := 11 } },
           saveTransaction wState2 { wTxn with date := { year := 2024, month := 5, day := 11 } }) :=
  ⟨⟨rfl, rfl, rfl⟩,
    (C10_same_month_date_only_update wState2 1 wTxn
      { year := 2024, month := 5, day := 11 } rfl rfl rfl).1⟩

/-- C3: evaluation of the code at the failing input of the claim.  Updating
the fixture transaction (expense 30, stored snapshot 70) with identical amount
and type and no date leaves the budget balance at 70 as the claim demands, but
rewrites remainingBalanceAfterTransaction to 40: the code computes it from the
in-memory pre-reversal budget copy (70) minus the new amount (30), which
differs from the final budget balance by the original signed amount. -/
theorem C3_noop_update_evaluation :
    (updateDailyTransactionService wState2 1
      { description := none, amount := some 30, type := some TransactionType.expense,
        date := none, categoryId := none }).toOption.map
      (fun p => (p.1.remainingBalanceAfterTransaction,
                 (findMonthlyBudgetById p.2 1).map (fun b => b.remainingBalance))) =
      some (40, some 70) ∧
    (findDailyTransactionById wState2 1).map
      (fun t => t.remainingBalanceAfterTransaction) = some 70 ∧
    (40 : ℚ) ≠ 70 := by
  refine ⟨?_, rfl, by norm_num⟩
  simp [updateDailyTransactionService, wState2, wTxn, wBudget70, wBudget,
    findDailyTransactionById, findMonthlyBudgetById, updateRemainingBalance,
    saveBudget, saveTransaction, Except.toOption]
  norm_num

/-- The SQL SUM fold started from a partial total yields the plain sum. -/
theorem sqlSumAmount_foldl (l : List ℚ) (v : ℚ) :
    l.foldl (fun acc a => some (acc.getD 0 + a)) (some v) = some (v + l.sum) := by
  induction l generalizing v with
  | nil => simp
  | cons a t ih => simp [ih, add_assoc]

/-- The NULL-to-0 view of the SQL SUM equals the plain sum of the amounts. -/
theorem sqlSumAmount_getD (l : List ℚ) : (sqlSumAmount l).getD 0 = l.sum := by
  cases l with
  | nil => rfl
  | cons a t => simp [sqlSumAmount, sqlSumAmount_foldl]

/-- C9: the by-date aggregate returns the sum of amount over exactly the rows
with matching clientId, exactly equal date and expense type, and 0 when there
is no such row; the by-month aggregate returns the same sum restricted to
dates between the first and the last day of the calendar month inclusive, and
0 when there is no such row.  Both are pure functions of the transaction
table, so neither modifies any state. -/
theorem C9_expense_sum_queries (txs : List DailyTransaction) (clientId : Nat)
    (date : JSDate) (year : Int) (month : Nat) :
    (getDailyTransactionsSumByDate txs clientId date =
      ((txs.filter (fun t => t.clientId == clientId && t.date == date
          && t.type == TransactionType.expense)).map (fun t => t.amount)).sum) ∧
    ((∀ t ∈ txs, ¬ (t.clientId = clientId ∧ t.date = date ∧
        t.type = TransactionType.expense)) →
      getDailyTransactionsSumByDate txs clientId date = 0) ∧
    (getDailyTransactionsSumByMonth txs clientId year month =
      ((txs.filter (fun t => t.clientId == clientId
          && JSDate.le { year := year, month := month, day := 1 } t.date
          && JSDate.le t.date { year := year, month := month, day := daysInMonth year month }
          && t.type == TransactionType.expense)).map (fun t => t.amount)).sum) ∧
    ((∀ t ∈ txs, ¬ (t.clientId = clientId ∧
        JSDate.le { year := year, month := month, day := 1 } t.date = true ∧
        JSDate.le t.date { year := year, month := month, day := daysInMonth year month } = true ∧
        t.type = TransactionType.expense)) →
      getDailyTransactionsSumByMonth txs clientId year month = 0) := by
  refine ⟨sqlSumAmount_getD _, ?_, sqlSumAmount_getD _, ?_⟩
  · intro hnone
    have hfil : txs.filter (fun t => t.clientId == clientId && t.date == date
        && t.type == TransactionType.expense) = [] := by
      rw [List.filter_eq_nil_iff]
      intro t htm
      have := hnone t htm
      simp only [Bool.and_eq_true, beq_iff_eq]
      rintro ⟨⟨h1, h2⟩, h3⟩
      exact this ⟨h1, h2, h3⟩
    simp [getDailyTransactionsSumByDate, hfil, sqlSumAmount]
  · intro hnone
    have hfil : txs.filter (fun t => t.clientId == clientId
        && JSDate.le { year := year, month := month, day := 1 } t.date
        && JSDate.le t.date { year := year, month := month, day := daysInMonth year month }
        && t.type == TransactionType.expense) = [] := by
      rw [List.filter_eq_nil_iff]
      intro t htm
      have := hnone t htm
      simp only [Bool.and_eq_true, beq_iff_eq]
      rintro ⟨⟨⟨h1, h2⟩, h3⟩, h4⟩
      exact this ⟨h1, h2, h3, h4⟩
    simp [getDailyTransactionsSumByMonth, hfil, sqlSumAmount]

/-- C9 witness: the queries applied to the fixture table: the fixture expense
of 30 on 2024-05-10 is counted by both queries, and an empty table gives 0. -/
theorem C9_witness :
    getDailyTransactionsSumByDate [wTxn] 1 { year := 2024, month := 5, day := 10 } =
      (([wTxn].filter (fun t => t.clientId == 1
          && t.date == ({ year := 2024, month := 5, day := 10 } : JSDate)
          && t.type == TransactionType.expense)).map (fun t => t.amount)).sum ∧
    getDailyTransactionsSumByDate ([] : List DailyTransaction) 1
      { year := 2024, month := 5, day := 10 } = 0 :=
  ⟨(C9_expense_sum_queries [wTxn] 1 { year := 2024, month := 5, day := 10 } 2024 5).1,
   (C9_expense_sum_queries ([] : List DailyTransaction) 1
      { year := 2024, month := 5, day := 10 } 2024 5).2.1 (by intro t htm; cases htm)⟩

/-- Replacement form of find?_replace_self with the queried id as a parameter. -/
theorem find?_replace_self_of_eq {α : Type} (f : α → Nat) (l : List α) (c : α) (i : Nat)
    (hi : f c = i) (h : (l.find? (fun x => f x == i)).isSome = true) :
    (l.map (fun x => if f x == i then c else x)).find? (fun x => f x == i) = some c := by
  subst hi
  exact find?_replace_self f l c h

/-- Replacing the row with one id leaves lookups of a different id unchanged. -/
theorem find?_replace_other_of_ne {α : Type} (f : α → Nat) (l : List α) (c : α)
    (i j : Nat) (hi : f c = i) (hne : i ≠ j) :
    (l.map (fun x => if f x == i then c else x)).find? (fun x => f x == j) =
      l.find? (fun x => f x == j) := by
  subst hi
  apply find?_map_congr
  · intro x _
    by_cases hxc : (f x == f c) = true
    · have hfx : f x = f c := by simpa using hxc
      simp [hxc, hfx]
    · simp [hxc]
  · intro x _ hq
    have hxj : f x = j := by simpa using hq
    have hnc : ¬ (f x == f c) = true := by
      intro hh
      have h2 : f x = f c := by simpa using hh
      exact hne (h2.symm.trans hxj)
    simp [hnc]

/-- A state whose transactions were swapped keeps all budget lookups. -/
theorem findMonthlyBudgetById_withTransactions (s : AppState)
    (l : List DailyTransaction) (i : Nat) :
    findMonthlyBudgetById { s with transactions := l } i = findMonthlyBudgetById s i := rfl

/-- Removing transaction rows keeps all budget lookups. -/
theorem findMonthlyBudgetById_removeTransaction (s : AppState) (i j : Nat) :
    findMonthlyBudgetById (removeTransaction s i) j = findMonthlyBudgetById s j := rfl

/-- Transaction row as createDailyTransactionService persists it when the
monthly budget mb of the transaction date already exists. -/
def newTxnRow (s : AppState) (d : CreateTransactionData) (mb : MonthlyBudget) :
    DailyTransaction :=
  { id := freshTransactionId s
    description := d.description
    amount := d.amount
    type := d.type
    date := d.date
    remainingBalanceAfterTransaction :=
      if d.type = TransactionType.expense then mb.remainingBalance - d.amount
      else mb.remainingBalance + d.amount
    clientId := d.clientId
    categoryId := d.categoryId
    monthlyBudgetId := mb.id }

/-- Membership of the budget returned by a year-and-month lookup. -/
theorem mem_of_findMonthlyBudgetByYearAndMonth (s : AppState) (c : Nat) (y : Int)
    (m : Nat) (b : MonthlyBudget)
    (h : findMonthlyBudgetByYearAndMonth s c y m = some b) : b ∈ s.budgets :=
  List.mem_of_find?_eq_some h

/-- Under nodup budget ids, a member budget is returned by the lookup of its id. -/
theorem findMonthlyBudgetById_of_mem (s : AppState) (b : MonthlyBudget)
    (hn : (s.budgets.map (fun x => x.id)).Nodup) (hb : b ∈ s.budgets) :
    findMonthlyBudgetById s b.id = some b :=
  find?_of_nodup_mem (fun (x : MonthlyBudget) => x.id) s.budgets b hn hb

/-- Characterization of createDailyTransactionService when the client exists,
no category is supplied and the budget of the transaction month exists: the
new row is persisted and the delta applied to the budget. -/
theorem createDailyTransactionService_existing (s : AppState)
    (d : CreateTransactionData) (b : MonthlyBudget) (client : Client)
    (hcl : findClientById s d.clientId = some client)
    (hb : findMonthlyBudgetByYearAndMonth s d.clientId d.date.year d.date.month = some b)
    (hfb : findMonthlyBudgetById s b.id = some b)
    (hcat : d.categoryId = none) :
    createDailyTransactionService s d =
      .ok (newTxnRow s d b,
        saveBudget { s with transactions := s.transactions ++ [newTxnRow s d b] }
          (deltaApplied b d.amount (decide (d.type = TransactionType.income)))) := by
  simp only [createDailyTransactionService, hcl, hcat, getOrCreateMonthlyBudget, hb,
    newTxnRow]
  rw [updateRemainingBalance_found _ _ _ _ b
    ((findMonthlyBudgetById_withTransactions s _ b.id).trans hfb)]

/-- After a create against an existing budget, the budget row carries the
applied delta. -/
theorem hres_after_create (s : AppState) (d : CreateTransactionData)
    (b : MonthlyBudget) (hsome : (findMonthlyBudgetById s b.id).isSome = true) :
    findMonthlyBudgetById
      (saveBudget { s with transactions := s.transactions ++ [newTxnRow s d b] }
        (deltaApplied b d.amount (decide (d.type = TransactionType.income))))
      b.id =
      some (deltaApplied b d.amount (decide (d.type = TransactionType.income))) := by
  simp only [findMonthlyBudgetById, saveBudget]
  exact find?_replace_self_of_eq (fun (x : MonthlyBudget) => x.id) _ _ _ rfl hsome

/-- Characterization of deleteDailyTransactionService on an existing
transaction whose budget exists: the inverse delta is applied to the budget
and the row is removed. -/
theorem deleteDailyTransactionService_found (s : AppState) (i : Nat)
    (txn : DailyTransaction) (mb : MonthlyBudget)
    (ht : findDailyTransactionById s i = some txn)
    (hmb : findMonthlyBudgetById s txn.monthlyBudgetId = some mb) :
    deleteDailyTransactionService s i =
      .ok (removeTransaction
        (saveBudget s
          (deltaApplied mb txn.amount (decide (¬ txn.type = TransactionType.income))))
        txn.id) := by
  have hmb2 : findMonthlyBudgetById s mb.id = some mb := by
    rw [id_of_findMonthlyBudgetById s txn.monthlyBudgetId mb hmb]
    exact hmb
  simp only [deleteDailyTransactionService, ht, hmb]
  rw [updateRemainingBalance_found _ _ _ _ mb hmb2]

/-- C2: creating an expense of amount A on a budget with remainingBalance R
moves the balance to R - A and snapshots R - A on the row, and deleting that
row restores the balance to exactly R and removes the row; for an income the
same holds with + A. -/
theorem C2_create_delete_roundtrip (s : AppState) (d : CreateTransactionData)
    (b : MonthlyBudget) (client : Client)
    (hn : (s.budgets.map (fun x => x.id)).Nodup)
    (hcl : findClientById s d.clientId = some client)
    (hcat : d.categoryId = none)
    (hb : findMonthlyBudgetByYearAndMonth s d.clientId d.date.year d.date.month = some b)
    (hA : 0 < d.amount) :
    ∃ t s3,
      createDailyTransactionService s d = .ok (t, s3) ∧
      t.remainingBalanceAfterTransaction = b.remainingBalance +
        (if d.type = TransactionType.income then d.amount else -d.amount) ∧
      (findMonthlyBudgetById s3 b.id).map (fun x => x.remainingBalance) =
        some (b.remainingBalance +
          (if d.type = TransactionType.income then d.amount else -d.amount)) ∧
      ∃ s5, deleteDailyTransactionService s3 t.id = .ok s5 ∧
        (findMonthlyBudgetById s5 b.id).map (fun x => x.remainingBalance) =
          some b.remainingBalance ∧
        findDailyTransactionById s5 t.id = none := by
  have hfb : findMonthlyBudgetById s b.id = some b :=
    findMonthlyBudgetById_of_mem s b hn (mem_of_findMonthlyBudgetByYearAndMonth _ _ _ _ _ hb)
  have hsome : (findMonthlyBudgetById s b.id).isSome = true := by rw [hfb]; rfl
  rw [createDailyTransactionService_existing s d b client hcl hb hfb hcat]
  refine ⟨newTxnRow s d b, _, rfl, ?_, ?_, ?_⟩
  · cases hty : d.type <;> simp [newTxnRow, hty, sub_eq_add_neg]
  · rw [hres_after_create s d b hsome]
    cases hty : d.type <;> simp [hty, deltaApplied, sub_eq_add_neg]
  · have htfind :
        findDailyTransactionById
          (saveBudget { s with transactions := s.transactions ++ [newTxnRow s d b] }
            (deltaApplied b d.amount (decide (d.type = TransactionType.income))))
          ((newTxnRow s d b).id) = some (newTxnRow s d b) := by
      simp only [findDailyTransactionById, saveBudget]
      exact find?_append_new (fun (x : DailyTransaction) => x.id) s.transactions _
        (fun x hx => Nat.ne_of_lt (transaction_id_lt_fresh s x hx))
    have hmbt :
        findMonthlyBudgetById
          (saveBudget { s with transactions := s.transactions ++ [newTxnRow s d b] }
            (deltaApplied b d.amount (decide (d.type = TransactionType.income))))
          ((newTxnRow s d b).monthlyBudgetId) =
          some (deltaApplied b d.amount (decide (d.type = TransactionType.income))) :=
      hres_after_create s d b hsome
    rw [deleteDailyTransactionService_found _ _ _ _ htfind hmbt]
    have hsome3 :
        (findMonthlyBudgetById
          (saveBudget { s with transactions := s.transactions ++ [newTxnRow s d b] }
            (deltaApplied b d.amount (decide (d.type = TransactionType.income))))
          b.id).isSome = true := by
      rw [hres_after_create s d b hsome]; rfl
    have hres2 :
        findMonthlyBudgetById
          (saveBudget
            (saveBudget { s with transactions := s.transactions ++ [newTxnRow s d b] }
              (deltaApplied b d.amount (decide (d.type = TransactionType.income))))
            (deltaApplied (deltaApplied b d.amount (decide (d.type = TransactionType.income)))
              (newTxnRow s d b).amount
              (decide (¬ (newTxnRow s d b).type = TransactionType.income))))
          b.id =
          some (deltaApplied (deltaApplied b d.amount (decide (d.type = TransactionType.income)))
            (newTxnRow s d b).amount
            (decide (¬ (newTxnRow s d b).type = TransactionType.income))) := by
      simp only [findMonthlyBudgetById, saveBudget]
      exact find?_replace_self_of_eq (fun (x : MonthlyBudget) => x.id) _ _ _ rfl hsome3
    refine ⟨_, rfl, ?_, ?_⟩
    · rw [findMonthlyBudgetById_removeTransaction, hres2]
      cases hty : d.type <;> simp [hty, deltaApplied, newTxnRow]
    · simp only [findDailyTransactionById, removeTransaction, saveBudget]
      exact find?_filter_ne (fun (x : DailyTransaction) => x.id) _ _

/-- Fixture create request: an expense of 30 for the fixture client in May
2024, the month of the fixture budget. -/
def c2Req : CreateTransactionData :=
  { description := "Lunch", amount := 30, type := TransactionType.expense,
    date := { year := 2024, month := 5, day := 10 }, clientId := 1,
    categoryId := none }

/-- C2 witness: the round trip on the fixture budget with balance 100. -/
theorem C2_roundtrip_witness :
    ((wState.budgets.map (fun x => x.id)).Nodup ∧
     findClientById wState c2Req.clientId = some wClient ∧
     c2Req.categoryId = none ∧
     findMonthlyBudgetByYearAndMonth wState c2Req.clientId c2Req.date.year
       c2Req.date.month = some wBudget ∧
     0 < c2Req.amount) ∧
    (∃ t s3,
      createDailyTransactionService wState c2Req = .ok (t, s3) ∧
      t.remainingBalanceAfterTransaction = wBudget.remainingBalance +
        (if c2Req.type = TransactionType.income then c2Req.amount else -c2Req.amount) ∧
      (findMonthlyBudgetById s3 wBudget.id).map (fun x => x.remainingBalance) =
        some (wBudget.remainingBalance +
          (if c2Req.type = TransactionType.income then c2Req.amount else -c2Req.amount)) ∧
      ∃ s5, deleteDailyTransactionService s3 t.id = .ok s5 ∧
        (findMonthlyBudgetById s5 wBudget.id).map (fun x => x.remainingBalance) =
          some wBudget.remainingBalance ∧
        findDailyTransactionById s5 t.id = none) :=
  ⟨⟨by simp [wState, wBudget], rfl, rfl, rfl, by norm_num [c2Req]⟩,
   C2_create_delete_roundtrip wState c2Req wBudget wClient
     (by simp [wState, wBudget]) rfl rfl rfl (by norm_num [c2Req])⟩

/-- Replacing a budget row by one with the same id keeps the id column. -/
theorem map_id_replace_budget (l : List MonthlyBudget) (c : MonthlyBudget) :
    (l.map (fun x => if x.id == c.id then c else x)).map (fun x => x.id) =
      l.map (fun x => x.id) := by
  rw [List.map_map]
  apply List.map_congr_left
  intro x _
  by_cases hx : x.id = c.id
  · simp [hx]
  · simp [hx]

/-- Saving a budget row does not move the generated fresh id. -/
theorem freshBudgetId_saveBudget (s : AppState) (c : MonthlyBudget) :
    freshBudgetId (saveBudget s c) = freshBudgetId s := by
  simp only [freshBudgetId, saveBudget]
  rw [map_id_replace_budget]

/-- Membership of the budget returned by an id lookup. -/
theorem mem_of_findMonthlyBudgetById_self (s : AppState) (i : Nat) (b : MonthlyBudget)
    (h : findMonthlyBudgetById s i = some b) : b ∈ s.budgets :=
  List.mem_of_find?_eq_some h

/-- Saving a balance-only rewrite of a row whose key does not satisfy a
year-and-month query leaves that query unchanged (ids nodup). -/
theorem findMonthlyBudgetByYearAndMonth_saveDelta (s : AppState) (b : MonthlyBudget)
    (a : ℚ) (add : Bool) (cl : Nat) (y : Int) (m : Nat)
    (hn : (s.budgets.map (fun x => x.id)).Nodup) (hmem : b ∈ s.budgets)
    (hqb : (b.clientId == cl && b.year == y && b.month == m) = false) :
    findMonthlyBudgetByYearAndMonth (saveBudget s (deltaApplied b a add)) cl y m =
      findMonthlyBudgetByYearAndMonth s cl y m := by
  simp only [findMonthlyBudgetByYearAndMonth, saveBudget]
  apply find?_map_congr
  · intro x hx
    by_cases hxc : (x.id == (deltaApplied b a add).id) = true
    · have hxb : x = b :=
        eq_of_nodup_ids (fun z => z.id) s.budgets x b hn hx hmem
          (by simpa [deltaApplied] using hxc)
      rw [if_pos hxc, hxb]
      simp [deltaApplied]
    · rw [if_neg hxc]
  · intro x hx hq
    by_cases hxc : (x.id == (deltaApplied b a add).id) = true
    · have hxb : x = b :=
        eq_of_nodup_ids (fun z => z.id) s.budgets x b hn hx hmem
          (by simpa [deltaApplied] using hxc)
      rw [hxb] at hq
      rw [hq] at hqb
      simp at hqb
    · rw [if_neg hxc]

/-- C1: an update moving a transaction to a different month reverses the
original signed effect on the original budget (expense adds back, income
subtracts), applies the new signed effect (new amount and type when supplied,
original ones otherwise) to the budget of the new month (balance 0 when that
budget is created by the lookup, its stored balance otherwise), repoints
monthlyBudgetId at that budget, and leaves no residual effect on the original
budget. -/
theorem C1_cross_month_move (s : AppState) (i : Nat) (u : UpdateTransactionData)
    (txn : DailyTransaction) (b : MonthlyBudget) (client : Client) (d : JSDate)
    (hn : (s.budgets.map (fun x => x.id)).Nodup)
    (ht : findDailyTransactionById s i = some txn)
    (hb : findMonthlyBudgetById s txn.monthlyBudgetId = some b)
    (hby : b.year = txn.date.year) (hbm : b.month = txn.date.month)
    (hcl : findClientById s txn.clientId = some client)
    (hd : u.date = some d)
    (hdiff : ¬ (d.month = txn.date.month ∧ d.year = txn.date.year))
    (hcat : u.categoryId = none) :
    ∃ t2 s4,
      updateDailyTransactionService s i u = .ok (t2, s4) ∧
      (∃ bOld, findMonthlyBudgetById s4 b.id = some bOld ∧
        bOld.remainingBalance = b.remainingBalance +
          (if txn.type = TransactionType.expense then txn.amount else -txn.amount) ∧
        bOld.year = b.year ∧ bOld.month = b.month) ∧
      t2.monthlyBudgetId ≠ b.id ∧
      (∃ bNew, findMonthlyBudgetById s4 t2.monthlyBudgetId = some bNew ∧
        bNew.clientId = txn.clientId ∧ bNew.year = d.year ∧ bNew.month = d.month ∧
        bNew.remainingBalance =
          (match findMonthlyBudgetByYearAndMonth s txn.clientId d.year d.month with
           | some nb => nb.remainingBalance
           | none => 0) +
          (if u.type.getD txn.type = TransactionType.income
           then u.amount.getD txn.amount else -(u.amount.getD txn.amount))) ∧
      t2.amount = u.amount.getD txn.amount ∧ t2.type = u.type.getD txn.type ∧
      findDailyTransactionById s4 i = some t2 := by
  have hti : txn.id = i := id_of_findDailyTransactionById s i txn ht
  have hmem : b ∈ s.budgets := mem_of_findMonthlyBudgetById_self s _ b hb
  have hfbid : findMonthlyBudgetById s b.id = some b :=
    findMonthlyBudgetById_of_mem s b hn hmem
  have hmc : (d.month != txn.date.month || d.year != txn.date.year) = true := by
    by_cases h1 : d.month = txn.date.month
    · have h2 : d.year ≠ txn.date.year := fun hh => hdiff ⟨h1, hh⟩
      simp [h1, h2]
    · simp [h1]
  simp only [updateDailyTransactionService, ht, hcat, hd, hmc, hb,
    Bool.or_true, if_true, Option.getD_some]
  rw [updateRemainingBalance_found s b.id txn.amount
    (decide (txn.type ≠ TransactionType.income)) b hfbid]
  set bRev : MonthlyBudget :=
    deltaApplied b txn.amount (decide (txn.type ≠ TransactionType.income)) with hbRevDef
  set s1v : AppState := saveBudget s bRev with hs1Def
  have hcl1 : findClientById s1v txn.clientId = some client := hcl
  have hqb : (b.clientId == txn.clientId && b.year == d.year && b.month == d.month) =
      false := by
    by_cases h1 : d.month = txn.date.month
    · have h2 : d.year ≠ txn.date.year := fun hh => hdiff ⟨h1, hh⟩
      have hyf : (b.year == d.year) = false := by
        rw [beq_eq_false_iff_ne, hby]
        exact fun hh => h2 hh.symm
      simp [hyf]
    · have hmf : (b.month == d.month) = false := by
        rw [beq_eq_false_iff_ne, hbm]
        exact fun hh => h1 hh.symm
      simp [hmf]
  have hsave1 : findMonthlyBudgetByYearAndMonth s1v txn.clientId d.year d.month =
      findMonthlyBudgetByYearAndMonth s txn.clientId d.year d.month := by
    rw [hs1Def, hbRevDef]
    exact findMonthlyBudgetByYearAndMonth_saveDelta s b txn.amount _
      txn.clientId d.year d.month hn hmem hqb
  have hfb1 : findMonthlyBudgetById s1v b.id = some bRev := by
    rw [hs1Def, hbRevDef]
    exact findMonthlyBudgetById_save_self s _
      (by show (findMonthlyBudgetById s b.id).isSome = true; rw [hfbid]; rfl)
  have hsomeTxn : (findDailyTransactionById s txn.id).isSome = true := by
    rw [hti, ht]; rfl
  cases hex : findMonthlyBudgetByYearAndMonth s txn.clientId d.year d.month with
  | none =>
    have hex1 : findMonthlyBudgetByYearAndMonth s1v txn.clientId d.year d.month = none := by
      rw [hsave1, hex]
    set rowv : MonthlyBudget := createdBudgetRow s1v txn.clientId d.year d.month none client
      with hrowDef
    set s2v : AppState := { s1v with budgets := s1v.budgets ++ [rowv] } with hs2Def
    have hgoc : getOrCreateMonthlyBudget s1v txn.clientId d.year d.month none =
        .ok (rowv, s2v) := by
      rw [hrowDef, hs2Def, hrowDef]
      simp only [getOrCreateMonthlyBudget, hcl1, hex1, createdBudgetRow]
    simp only [hgoc]
    have hfind2 : findMonthlyBudgetById s2v rowv.id = some rowv := by
      rw [hs2Def]
      simp only [findMonthlyBudgetById]
      exact find?_append_new (fun (x : MonthlyBudget) => x.id) s1v.budgets rowv
        (fun x hx => Nat.ne_of_lt (budget_id_lt_fresh s1v x hx))
    rw [updateRemainingBalance_found s2v rowv.id (u.amount.getD txn.amount)
      (decide (u.type.getD txn.type = TransactionType.income)) rowv hfind2]
    set dRow : MonthlyBudget := deltaApplied rowv (u.amount.getD txn.amount)
      (decide (u.type.getD txn.type = TransactionType.income)) with hdRowDef
    set s3v : AppState := saveBudget s2v dRow with hs3Def
    have hneR : rowv.id ≠ b.id := by
      rw [hrowDef]
      show freshBudgetId s1v ≠ b.id
      rw [hs1Def, freshBudgetId_saveBudget]
      exact (Nat.ne_of_lt (budget_id_lt_fresh s b hmem)).symm
    refine ⟨_, _, rfl, ?_, ?_, ?_, ?_, ?_, ?_⟩
    · rw [findMonthlyBudgetById_saveTransaction]
      have hneD : dRow.id ≠ b.id := hneR
      rw [hs3Def, findMonthlyBudgetById_save_other s2v dRow b.id hneD]
      have hfb2 : findMonthlyBudgetById s2v b.id = some bRev := by
        rw [hs2Def]
        simp only [findMonthlyBudgetById]
        exact find?_append_left _ s1v.budgets [rowv] bRev hfb1
      rw [hfb2]
      refine ⟨bRev, rfl, ?_, rfl, rfl⟩
      rw [hbRevDef]
      cases hty2 : txn.type <;> simp [deltaApplied, hty2, sub_eq_add_neg]
    · cases hu : u.amount <;> exact hneR
    · have hfbNew : findMonthlyBudgetById s3v rowv.id = some dRow := by
        rw [hs3Def, hdRowDef]
        exact findMonthlyBudgetById_save_self s2v _
          (by show (findMonthlyBudgetById s2v rowv.id).isSome = true; rw [hfind2]; rfl)
      refine ⟨dRow, ?_, ?_, ?_, ?_, ?_⟩
      · cases hu : u.amount <;>
          (rw [findMonthlyBudgetById_saveTransaction]; exact hfbNew)
      · rfl
      · rfl
      · rfl
      · rw [hdRowDef, hrowDef]
        cases hNT : u.type.getD txn.type <;>
          simp [deltaApplied, createdBudgetRow, hNT, sub_eq_add_neg]
    · cases hu : u.amount <;> simp
    · cases hu : u.amount <;> rfl
    · have hsome4 : (findDailyTransactionById s3v txn.id).isSome = true := hsomeTxn
      rw [← hti]
      cases hu : u.amount <;> exact findDailyTransactionById_save_self s3v _ hsome4
  | some nb =>
    have hex1 : findMonthlyBudgetByYearAndMonth s1v txn.clientId d.year d.month =
        some nb := by
      rw [hsave1, hex]
    have hnbMem : nb ∈ s.budgets := List.mem_of_find?_eq_some hex
    obtain ⟨⟨hqc1, hqc2⟩, hqc3⟩ :
        (nb.clientId = txn.clientId ∧ nb.year = d.year) ∧ nb.month = d.month := by
      have hq := List.find?_some hex
      simpa using hq
    have hidne : nb.id ≠ b.id := by
      intro hh
      have hnbb : nb = b := eq_of_nodup_ids (fun z => z.id) s.budgets nb b hn hnbMem hmem hh
      have hqnb := List.find?_some hex
      rw [hnbb] at hqnb
      rw [hqnb] at hqb
      simp at hqb
    have hgoc : getOrCreateMonthlyBudget s1v txn.clientId d.year d.month none =
        .ok (nb, s1v) := by
      simp only [getOrCreateMonthlyBudget, hcl1, hex1]
    simp only [hgoc]
    have hfnb : findMonthlyBudgetById s1v nb.id = some nb := by
      rw [hs1Def, hbRevDef]
      rw [findMonthlyBudgetById_save_other s
        (deltaApplied b txn.amount (decide (txn.type ≠ TransactionType.income)))
        nb.id hidne.symm]
      exact findMonthlyBudgetById_of_mem s nb hn hnbMem
    rw [updateRemainingBalance_found s1v nb.id (u.amount.getD txn.amount)
      (decide (u.type.getD txn.type = TransactionType.income)) nb hfnb]
    set dNb : MonthlyBudget := deltaApplied nb (u.amount.getD txn.amount)
      (decide (u.type.getD txn.type = TransactionType.income)) with hdNbDef
    set s3v : AppState := saveBudget s1v dNb with hs3Def
    refine ⟨_, _, rfl, ?_, ?_, ?_, ?_, ?_, ?_⟩
    · rw [findMonthlyBudgetById_saveTransaction]
      have hneD : dNb.id ≠ b.id := hidne
      rw [hs3Def, findMonthlyBudgetById_save_other s1v dNb b.id hneD]
      rw [hfb1]
      refine ⟨bRev, rfl, ?_, rfl, rfl⟩
      rw [hbRevDef]
      cases hty2 : txn.type <;> simp [deltaApplied, hty2, sub_eq_add_neg]
    · cases hu : u.amount <;> exact hidne
    · have hfbNew : findMonthlyBudgetById s3v nb.id = some dNb := by
        rw [hs3Def, hdNbDef]
        exact findMonthlyBudgetById_save_self s1v _
          (by show (findMonthlyBudgetById s1v nb.id).isSome = true; rw [hfnb]; rfl)
      refine ⟨dNb, ?_, ?_, ?_, ?_, ?_⟩
      · cases hu : u.amount <;>
          (rw [findMonthlyBudgetById_saveTransaction]; exact hfbNew)
      · exact hqc1
      · exact hqc2
      · exact hqc3
      · rw [hdNbDef]
        cases hNT : u.type.getD txn.type <;> simp [deltaApplied, hNT, sub_eq_add_neg]
    · cases hu : u.amount <;> simp
    · cases hu : u.amount <;> rfl
    · have hsome4 : (findDailyTransactionById s3v txn.id).isSome = true := hsomeTxn
      rw [← hti]
      cases hu : u.amount <;> exact findDailyTransactionById_save_self s3v _ hsome4

/-- Fixture update request moving a transaction to June 2024. -/
def c1Upd : UpdateTransactionData :=
  { description := none, amount := none, type := none,
    date := some { year := 2024, month := 6, day := 15 }, categoryId := none }

/-- C1 witness: moving the fixture May 2024 expense to June 2024. -/
theorem C1_cross_month_witness :
    ((wState2.budgets.map (fun x => x.id)).Nodup ∧
     findDailyTransactionById wState2 1 = some wTxn ∧
     findMonthlyBudgetById wState2 wTxn.monthlyBudgetId = some wBudget70 ∧
     wBudget70.year = wTxn.date.year ∧ wBudget70.month = wTxn.date.month ∧
     findClientById wState2 wTxn.clientId = some wClient ∧
     c1Upd.date = some { year := 2024, month := 6, day := 15 } ∧
     ¬ (({ year := 2024, month := 6, day := 15 } : JSDate).month = wTxn.date.month ∧
        ({ year := 2024, month := 6, day := 15 } : JSDate).year = wTxn.date.year) ∧
     c1Upd.categoryId = none) ∧
    (∃ t2 s4,
      updateDailyTransactionService wState2 1 c1Upd = .ok (t2, s4) ∧
      (∃ bOld, findMonthlyBudgetById s4 wBudget70.id = some bOld ∧
        bOld.remainingBalance = wBudget70.remainingBalance +
          (if wTxn.type = TransactionType.expense then wTxn.amount else -wTxn.amount) ∧
        bOld.year = wBudget70.year ∧ bOld.month = wBudget70.month) ∧
      t2.monthlyBudgetId ≠ wBudget70.id ∧
      (∃ bNew, findMonthlyBudgetById s4 t2.monthlyBudgetId = some bNew ∧
        bNew.clientId = wTxn.clientId ∧
        bNew.year = ({ year := 2024, month := 6, day := 15 } : JSDate).year ∧
        bNew.month = ({ year := 2024, month := 6, day := 15 } : JSDate).month ∧
        bNew.remainingBalance =
          (match findMonthlyBudgetByYearAndMonth wState2 wTxn.clientId
              ({ year := 2024, month := 6, day := 15 } : JSDate).year
              ({ year := 2024, month := 6, day := 15 } : JSDate).month with
           | some nb => nb.remainingBalance
           | none => 0) +
          (if c1Upd.type.getD wTxn.type = TransactionType.income
           then c1Upd.amount.getD wTxn.amount else -(c1Upd.amount.getD wTxn.amount))) ∧
      t2.amount = c1Upd.amount.getD wTxn.amount ∧ t2.type = c1Upd.type.getD wTxn.type ∧
      findDailyTransactionById s4 1 = some t2) :=
  ⟨⟨by simp [wState2, wBudget70, wBudget], rfl, rfl, rfl, rfl, rfl, rfl,
    by simp [wTxn], rfl⟩,
   C1_cross_month_move wState2 1 c1Upd wTxn wBudget70 wClient
     { year := 2024, month := 6, day := 15 }
     (by simp [wState2, wBudget70, wBudget]) rfl rfl rfl rfl rfl rfl
     (by simp [wTxn]) rfl⟩

end AppFree
